import Mathlib

set_option maxRecDepth 8000

/-!
Shallow embedding of the asciicast record/playback utilities
(`record_session.py`, `playback_session.py`) and proofs about the
behaviour their specification claims.

Conventions:
* Python floats are modelled as rationals (ℚ); all arithmetic in the
  source is exact at the granularity the claims mention.
* Values returned by `json.loads` are modelled by the inductive `Json`.
* Fallible Python operations are modelled with `Option`/`Except`; an
  exception that the source code does not catch locally is propagated
  to the enclosing handler exactly as in the source.
-/

/-- Value produced by Python `json.loads`.  Numbers are kept as one
constructor because Python compares ints and floats by value
(`2 == 2.0`), which is what the header version check relies on. -/
inductive Json where
  | null
  | bool (b : Bool)
  | num (v : ℚ)
  | str (s : String)
  | arr (items : List Json)
  | obj (fields : List (String × Json))

/-- Python `len(x)`: defined for strings, lists and dicts; raises
`TypeError` (modelled as `none`) on numbers, booleans and `None`. -/
def pyLen : Json → Option ℕ
  | .str s => some s.length
  | .arr items => some items.length
  | .obj fields => some fields.length
  | _ => none

def charToStr (c : Char) : String := String.mk [c]

/-- Python `x[i]` with a non-negative int index: list indexing
(`IndexError` out of range), string indexing (yields a one-character
string), dict indexing with an int key (always `KeyError`, because JSON
object keys are strings), and `TypeError` otherwise.  All failures are
modelled as `none`. -/
def pyGetItemNat : Json → ℕ → Option Json
  | .arr items, i => (items.get? i).map id
  | .str s, i => (s.toList.get? i).map (fun c => .str (charToStr c))
  | .obj _, _ => none
  | _, _ => none

def digitsVal (l : List Char) : ℕ :=
  l.foldl (fun n c => 10 * n + (c.toNat - 48)) 0

def allDigits (l : List Char) : Bool :=
  !l.isEmpty && l.all Char.isDigit

/-- Python `float(s)` restricted to plain decimal literals: optional
sign, then digits, an optional dot and fractional digits (`"1"`,
`"1.5"`, `"1."`, `".5"` are accepted, as in Python).  Exponent,
`inf`/`nan` and surrounding-whitespace forms are not modelled; no claim
depends on them. -/
def pyFloatOfString (s : String) : Option ℚ :=
  let cs := s.toList
  let signRest : ℚ × List Char :=
    match cs with
    | '-' :: r => (-1, r)
    | '+' :: r => (1, r)
    | r => (1, r)
  let sign := signRest.1
  let rest := signRest.2
  let intPart := rest.takeWhile (fun c => c ≠ '.')
  match rest.drop intPart.length with
  | [] =>
    if allDigits intPart then some (sign * digitsVal intPart) else none
  | _ :: frac =>
    if (intPart.isEmpty && frac.isEmpty) then none
    else if intPart.all Char.isDigit && frac.all Char.isDigit then
      some (sign * ((digitsVal intPart : ℚ) + (digitsVal frac : ℚ) / 10 ^ frac.length))
    else none

/-- Python `float(x)` on a value decoded from JSON: numbers are
returned, booleans become 0/1, numeric strings are parsed; `None`,
lists, dicts and non-numeric strings raise (`TypeError`/`ValueError`),
modelled as `none`. -/
def pyFloat : Json → Option ℚ
  | .num v => some v
  | .bool b => some (if b then 1 else 0)
  | .str s => pyFloatOfString s
  | _ => none

/-- Python `str(x)` on a value decoded from JSON.  String payloads are
the identity, which is the only case any claim inspects; the textual
repr of the remaining cases is abstracted (it is total and never
raises, which is all the loader relies on). -/
def pyStr : Json → String
  | .null => "None"
  | .bool b => if b then "True" else "False"
  | .num v => toString v
  | .str s => s
  | .arr _ => "<list>"
  | .obj _ => "<dict>"

/-- Python `d.get(k)` on a JSON object (association-list lookup). -/
def jsonGet (j : Json) (key : String) : Option Json :=
  match j with
  | .obj fields => (fields.find? (fun f => f.1 = key)).map (fun f => f.2)
  | _ => none

/-- One line of a cast file, as seen after `line.strip()` and
`json.loads`: `blank` is a line whose stripped text is empty (note
`json.loads("")` raises `JSONDecodeError`), `badJson` a non-empty line
that fails to parse, `parsed v` a line parsing to the JSON value `v`. -/
inductive RawLine where
  | blank
  | badJson
  | parsed (v : Json)

/-- One in-memory playback event, i.e. one element of
`AsciinemaPlayer.events`: `(float(timestamp), str(event_type), str(data))`. -/
structure PlayEvent where
  t : ℚ
  kind : String
  data : String
deriving DecidableEq

/-- Fatal outcomes of `AsciinemaPlayer.load_cast_file` (each makes the
method return `False`, and `main` then exits non-zero). -/
inductive LoadError where
  /-- `if not lines:` — file with no lines. -/
  | emptyFile
  /-- `json.loads(lines[0].strip())` raised `JSONDecodeError`. -/
  | invalidHeaderJson
  /-- `self.header.get('version') != 2`. -/
  | unsupportedVersion
  /-- an exception other than `JSONDecodeError` escaped the per-line
  handling (e.g. `TypeError` from `len`, `KeyError`/`IndexError` from
  subscripting, `ValueError`/`TypeError` from `float`) and was caught
  by the outer `except Exception`, failing the whole load. -/
  | uncaughtException
deriving DecidableEq

/-- Result of processing one post-header line of the cast file. -/
inductive LineResult where
  /-- stripped line was empty: `continue`. -/
  | skip
  /-- a warning is printed and the line is skipped. -/
  | warnSkip
  /-- the triple is appended to `self.events`. -/
  | event (e : PlayEvent)
  /-- an uncaught exception aborts the load. -/
  | fatal
deriving DecidableEq

/-- Processing of one event line in `load_cast_file` (lines 73-86 of
`playback_session.py`): blank lines are skipped; `JSONDecodeError`
yields a warning; a parsed value with `len(event) >= 3` has its first
three elements coerced with `float`/`str`/`str` (a coercion or
subscript failure is an uncaught exception); `len(event) < 3` yields a
warning; a value `len` does not apply to is an uncaught exception. -/
def processEventLine : RawLine → LineResult
  | .blank => .skip
  | .badJson => .warnSkip
  | .parsed v =>
    match pyLen v with
    | none => .fatal
    | some n =>
      if 3 ≤ n then
        match pyGetItemNat v 0, pyGetItemNat v 1, pyGetItemNat v 2 with
        | some e0, some e1, some e2 =>
          match pyFloat e0 with
          | some tv => .event ⟨tv, pyStr e1, pyStr e2⟩
          | none => .fatal
        | _, _, _ => .fatal
      else .warnSkip

/-- The event a line contributes, if any. -/
def eventOfLine (l : RawLine) : Option PlayEvent :=
  match processEventLine l with
  | .event e => some e
  | _ => none

/-- Whether a line produces a "malformed event" warning. -/
def lineWarns (l : RawLine) : Bool :=
  processEventLine l = .warnSkip

/-- The loop over `lines[1:]` of `load_cast_file`, accumulating
`self.events` together with the number of "malformed event /
invalid JSON" warnings printed. -/
def collectEvents : List RawLine → List PlayEvent → ℕ → Except LoadError (List PlayEvent × ℕ)
  | [], acc, w => .ok (acc, w)
  | l :: ls, acc, w =>
    match processEventLine l with
    | .skip => collectEvents ls acc w
    | .warnSkip => collectEvents ls acc (w + 1)
    | .event e => collectEvents ls (acc ++ [e]) w
    | .fatal => .error .uncaughtException

def versionKey : String := "version"

/-- Python equality `header.get('version') == 2`: true exactly when
the looked-up value is the number 2 (Python compares ints and floats
by value; no other JSON value equals the int 2). -/
def isVersionTwo (j : Json) : Bool :=
  match jsonGet j versionKey with
  | some (.num v) => v = 2
  | _ => false

/-- `AsciinemaPlayer.load_cast_file`: the header is parsed from
`lines[0]` (its stripped text, which for a blank first line is the
empty string and fails JSON parsing); the header must satisfy
`header.get('version') == 2` (a non-dict header raises
`AttributeError`, caught by the outer handler); remaining lines are
processed by `processEventLine`. -/
def load_cast_file : List RawLine → Except LoadError (Json × List PlayEvent × ℕ)
  | [] => .error .emptyFile
  | first :: rest =>
    match first with
    | .blank => .error .invalidHeaderJson
    | .badJson => .error .invalidHeaderJson
    | .parsed h =>
      match h with
      | .obj fields =>
        if isVersionTwo (.obj fields) then
          (collectEvents rest [] 0).map (fun evs => (Json.obj fields, evs))
        else .error .unsupportedVersion
      | _ => .error .uncaughtException

/-! ## Recorder: `AsciinemaRecorder.write_event` and the cast file (C1, C6) -/

/-- Python `round(x, 3)`.  Mathlib's `round` rounds half away from
zero upward while Python rounds half to even; they differ only on
exact multiples of 1/2000, and both are monotone, which is the only
property any claim uses. -/
def round3 (q : ℚ) : ℚ := (round (1000 * q) : ℤ) / 1000

/-- One event line `[timestamp, event_type, data]` appended to the
cast file after the header line. -/
structure CastEvent where
  t : ℚ
  kind : String
  data : String
deriving DecidableEq

/-- The open cast file: the event lines written so far and whether
`close()` has been called on the handle. -/
structure CastFileState where
  events : List CastEvent
  closed : Bool
deriving DecidableEq

/-- Exceptions relevant to appending events. -/
inductive PyExc where
  /-- Python `ValueError: I/O operation on closed file`, raised by
  `write` on a closed file object. -/
  | valueErrorClosedFile
  /-- the `WriterClosed` error named by the specification; nothing in
  the source ever raises it (no such class exists in the repository). -/
  | writerClosed
deriving DecidableEq

/-- Recorder fields relevant to `write_event`: `self.cast_file`
(`None` until `write_header` opens it — and note that a *closed* file
object is still truthy) and `self.start_time`. -/
structure RecorderState where
  castFile : Option CastFileState
  startTime : ℚ
deriving DecidableEq

/-- `AsciinemaRecorder.write_event` called when `time.time()` reads
`now`: `if self.cast_file:` skips silently when the attribute is
`None`; otherwise the event is serialized with timestamp
`round(time.time() - self.start_time, 3)` and written — a write on a
closed handle raises `ValueError` before anything reaches the file.
(The monitor broadcast of `o`/`e` events is modelled separately by
`broadcast_event`.) -/
def write_event (st : RecorderState) (now : ℚ) (etype edata : String) :
    Except PyExc RecorderState :=
  match st.castFile with
  | none => .ok st
  | some f =>
    if f.closed then .error .valueErrorClosedFile
    else
      .ok { st with
              castFile := some
                { f with events := f.events ++ [⟨round3 (now - st.startTime), etype, edata⟩] } }

/-- The recorder state right after `write_header`: file open, no event
lines yet, `start_time` fixed at construction. -/
def freshRecorder (t0 : ℚ) : RecorderState := ⟨some ⟨[], false⟩, t0⟩

/-- Session teardown runs `self.cast_file.close()` but leaves the
(truthy) closed file object in `self.cast_file`. -/
def closeCastFile (st : RecorderState) : RecorderState :=
  match st.castFile with
  | some f => { st with castFile := some { f with closed := true } }
  | none => st

/-- A sequence of `write_event` calls; each triple is the
`time.time()` reading at the call together with the event type and
payload. -/
def recordEvents (st : RecorderState) : List (ℚ × String × String) → Except PyExc RecorderState
  | [] => .ok st
  | c :: cs =>
    match write_event st c.1 c.2.1 c.2.2 with
    | .ok st2 => recordEvents st2 cs
    | .error e => .error e

/-- Timestamps of the event lines in the resulting cast file. -/
def castTimestamps (r : Except PyExc RecorderState) : List ℚ :=
  match r with
  | .ok st =>
    match st.castFile with
    | some f => f.events.map CastEvent.t
    | none => []
  | .error _ => []

/-! ## Terminal controller: raw-mode restoration (C2) -/

/-- How the body of a `try` block finishes. -/
inductive PyFlow where
  /-- runs to completion (this includes the child exiting / EOF). -/
  | normal
  /-- raises an exception derived from `Exception` (parse error, fatal
  I/O error, ...). -/
  | raisesException
  /-- raises `KeyboardInterrupt` (Ctrl-C / SIGINT). -/
  | raisesKeyboardInterrupt
deriving DecidableEq

/-- Controlling-terminal state: the current attributes and the
recorded `original_tty_settings` (`None` at construction). -/
structure TtySession where
  attrs : ℕ
  saved : Option ℕ
deriving DecidableEq

/-- `setup_terminal`: when stdin is a tty, save `tcgetattr` and switch
to raw mode; otherwise do nothing. -/
def setup_terminal (isTty : Bool) (rawAttrs : ℕ) (s : TtySession) : TtySession :=
  if isTty then { attrs := rawAttrs, saved := some s.attrs } else s

/-- `restore_terminal`: `if self.original_tty_settings:` — `tcgetattr`
returns a non-empty list, so a saved value is always truthy — then
`tcsetattr(..., TCSADRAIN, saved)`. -/
def restore_terminal (s : TtySession) : TtySession :=
  match s.saved with
  | some a => { s with attrs := a }
  | none => s

/-- Terminal-state flow of `AsciinemaRecorder.record_session`: the
recorder is constructed with `original_tty_settings = None`,
`setup_terminal` runs, then the recording body runs inside
`try/except Exception/finally`: an `Exception` is caught and printed,
`KeyboardInterrupt` propagates, and the `finally` clause restores the
terminal (and closes the cast file) on every path.  Returns the final
terminal state and the exception escaping the call, if any. -/
def record_session_tty (isTty : Bool) (rawAttrs entryAttrs : ℕ) (body : PyFlow) :
    TtySession × Option PyFlow :=
  let s0 : TtySession := ⟨entryAttrs, none⟩
  let s1 := setup_terminal isTty rawAttrs s0
  let escaping : Option PyFlow :=
    match body with
    | .normal => none
    | .raisesException => none
    | .raisesKeyboardInterrupt => some .raisesKeyboardInterrupt
  (restore_terminal s1, escaping)

/-- Terminal-state flow of `AsciinemaPlayer.play_in_terminal`: setup,
then the playback body inside `try/except KeyboardInterrupt/finally`:
`KeyboardInterrupt` is caught ("Playback interrupted"), other
exceptions propagate, and `finally` restores the terminal. -/
def play_in_terminal_tty (isTty : Bool) (rawAttrs entryAttrs : ℕ) (body : PyFlow) :
    TtySession × Option PyFlow :=
  let s0 : TtySession := ⟨entryAttrs, none⟩
  let s1 := setup_terminal isTty rawAttrs s0
  let escaping : Option PyFlow :=
    match body with
    | .normal => none
    | .raisesException => some .raisesException
    | .raisesKeyboardInterrupt => none
  (restore_terminal s1, escaping)

/-- Playback `main`: a cast file that fails to load makes the process
`sys.exit(1)` before `play_in_terminal` ever touches the terminal;
otherwise playback runs. -/
def playback_main_tty (loadOk isTty : Bool) (rawAttrs entryAttrs : ℕ) (body : PyFlow) :
    TtySession × Option PyFlow :=
  if loadOk then play_in_terminal_tty isTty rawAttrs entryAttrs body
  else (⟨entryAttrs, none⟩, none)

/-! ## Monitor hub: replay buffer and late-joiner sync (C4) -/

/-- One entry of `TerminalState.recent_output`
(`{timestamp, event_type, data}`). -/
structure BufEntry where
  wall : ℚ
  event_type : String
  data : String
deriving DecidableEq

/-- `collections.deque(maxlen = B)` append: the oldest entries are
evicted so that at most `maxlen` remain. -/
def dequePush (maxlen : ℕ) (xs : List BufEntry) (x : BufEntry) : List BufEntry :=
  let ys := xs ++ [x]
  ys.drop (ys.length - maxlen)

/-- `TerminalState`: the bounded output buffer (terminal size and
session metadata do not affect any claim and are omitted). -/
structure TermBufState where
  bufferSize : ℕ
  recentOutput : List BufEntry
deriving DecidableEq

/-- `TerminalState.process_output`. -/
def process_output (ts : TermBufState) (now : ℚ) (etype edata : String) : TermBufState :=
  { ts with recentOutput := dequePush ts.bufferSize ts.recentOutput ⟨now, etype, edata⟩ }

/-- The pieces of `WebSocketMonitorServer` state that
`broadcast_event` consults. -/
structure HubState where
  termState : TermBufState
  clients : ℕ
  running : Bool
deriving DecidableEq

/-- The `terminal_sync` payload assembled by
`TerminalState.get_sync_data`: the last 100 buffered entries and the
buffer counters. -/
structure SyncData where
  recent : List BufEntry
  totalEvents : ℕ
  showingRecent : ℕ
deriving DecidableEq

/-- `list(self.recent_output)[-100:]`. -/
def lastHundred (xs : List BufEntry) : List BufEntry :=
  xs.drop (xs.length - 100)

/-- `TerminalState.get_sync_data` (the `sync_time` wall-clock stamp is
omitted). -/
def get_sync_data (ts : TermBufState) : SyncData :=
  ⟨lastHundred ts.recentOutput, ts.recentOutput.length, min 100 ts.recentOutput.length⟩

/-- `WebSocketMonitorServer.broadcast_event`: when no client is
connected (or the server is not running) it returns *before*
`process_output`, so the replay buffer is not updated; otherwise the
buffer is updated and the event is fanned out to the clients. -/
def broadcast_event (h : HubState) (now : ℚ) (etype edata : String) : HubState :=
  if h.clients = 0 || !h.running then h
  else { h with termState := process_output h.termState now etype edata }

/-- `handle_websocket_client`: a newly attached viewer is sent the
current `get_sync_data` exactly once, before anything else. -/
def handle_client_connect (h : HubState) : List SyncData :=
  [get_sync_data h.termState]

/-! ## Recorder I/O loop: per-descriptor dispatch (C7) -/

/-- Observable effects of the recorder loop body. -/
structure IoState where
  /-- bytes written to the pty master (forwarded to the child). -/
  ptyWrites : List String
  /-- bytes echoed to the controlling terminal stdout. -/
  termOut : List String
  /-- bytes echoed to the controlling terminal stderr. -/
  termErr : List String
  /-- `(kind, payload)` pairs appended via `write_event`. -/
  events : List (String × String)
deriving DecidableEq

/-- The three descriptors `select` watches in `_handle_io`. -/
inductive FdKind where
  | stdinFd
  | masterFd
  | stderrFd
deriving DecidableEq

/-- Result of `os.read` on a ready descriptor: a chunk of bytes
(decoded with UTF-8 replacement for event payloads; the empty string
is a zero-byte read, i.e. EOF) or a raised `OSError`. -/
inductive ReadResult where
  | bytes (s : String)
  | osError
deriving DecidableEq

/-- Whether the dispatch arm falls through to the next loop iteration
or executes `return`, ending `_handle_io`. -/
inductive LoopAction where
  | keepGoing
  | exitLoop
deriving DecidableEq

/-- One dispatch arm of `AsciinemaRecorder._handle_io` (lines
681-722): for a ready descriptor and the outcome of its `os.read`,
the effects performed and whether the loop keeps running.
`if data:` is false for a zero-byte read, so EOF on stdin performs no
write and appends no event but also does not `return`; EOF on the pty
master executes `return`; EOF on the stderr pipe is `pass`.  An
`OSError` on stdin or master executes `return`; on stderr it is
`pass`ed. -/
def handle_fd (st : IoState) (fd : FdKind) (r : ReadResult) : IoState × LoopAction :=
  match fd, r with
  | .stdinFd, .bytes s =>
    if s = "" then (st, .keepGoing)
    else ({ st with ptyWrites := st.ptyWrites ++ [s],
                    events := st.events ++ [("i", s)] }, .keepGoing)
  | .stdinFd, .osError => (st, .exitLoop)
  | .masterFd, .bytes s =>
    if s = "" then (st, .exitLoop)
    else ({ st with termOut := st.termOut ++ [s],
                    events := st.events ++ [("o", s)] }, .keepGoing)
  | .masterFd, .osError => (st, .exitLoop)
  | .stderrFd, .bytes s =>
    if s = "" then (st, .keepGoing)
    else ({ st with termErr := st.termErr ++ [s],
                    events := st.events ++ [("e", s)] }, .keepGoing)
  | .stderrFd, .osError => (st, .keepGoing)

/-! ## Playback: timing (C3), controls and skip mode (C8), emission (C9) -/

/-- The chunked sleep loop of `play_events` (lines 318-322, run with
no pause or skip control active): while a positive delay remains,
sleep `min(0.1, remaining)` and subtract it.  `fuel` bounds the number
of iterations so the model is structurally recursive; any fuel of at
least `10 * remaining + 1` exhausts the remaining delay. -/
def sleepChunks : ℕ → ℚ → ℚ
  | 0, _ => 0
  | n + 1, r => if 0 < r then min (1 / 10) r + sleepChunks n (r - min (1 / 10) r) else 0

/-- Total sleep `play_events` inserts before one event when no pause
or skip control is active (lines 304-332): the nominal delay is
`(t - last_timestamp) / speed`; when positive, the code additionally
sleeps 0.5 s to display the "Skipping pause" title whenever the
nominal delay exceeds `max_delay`, and then sleeps the delay capped at
`max_delay` in ≤0.1 s chunks. -/
def insertedDelay (fuel : ℕ) (speed maxDelay lastT t : ℚ) : ℚ :=
  let delay := (t - lastT) / speed
  if 0 < delay then
    (if maxDelay < delay then 1 / 2 else 0) + sleepChunks fuel (min delay maxDelay)
  else 0

/-- Playback control flags (`self.paused`, `self.skip_to_next`). -/
structure PlayCtl where
  paused : Bool
  skipToNext : Bool
deriving DecidableEq

/-- `handle_input_during_playback` on one pending byte: Ctrl-C raises
`KeyboardInterrupt` (`none`); Space toggles pause; Tab requests skip
mode; every other byte is consumed with no effect. -/
def handle_input_key (c : PlayCtl) (ch : ℕ) : Option PlayCtl :=
  if ch = 3 then none
  else if ch = 32 then some { c with paused := !c.paused }
  else if ch = 9 then some { c with skipToNext := true }
  else some c

def activityTag : String := "activity_resumed_after"

def activityTagUnderscore : String := "activity_resumed_after_"

/-- Python substring test `needle in hay`. -/
def pyContains (needle hay : String) : Bool :=
  decide ( List.IsInfix needle.toList hay.toList)

/-- Python `s.startswith(pre)`. -/
def pyStartsWith (pre s : String) : Bool :=
  decide ( List.IsPrefix pre.toList s.toList)

/-- The skip-mode stopping test of `play_events` (lines 287-288):
`event_type == 'i' or (event_type == 'm' and
'activity_resumed_after' in data)` — a *substring* test on the
payload. -/
def isSkipStop (kind payload : String) : Bool :=
  kind = "i" || (kind = "m" && pyContains activityTag payload)

/-- The pre-emission phase of one `play_events` iteration (lines
279-332) with no concurrent keyboard input: in skip mode a stopping
event auto-pauses (pause set, skip flag cleared — `wait_while_paused`
then blocks until Space, modelled by the `paused` flag) and every
event is reached with no inserted delay (the `o`/`e` arm and the
final `else` arm of the skip branch both just `pass`); in normal
mode the inter-event sleep of `insertedDelay` runs.  Returns the
updated flags and the total sleep inserted. -/
def preEventStep (fuel : ℕ) (speed maxDelay lastT : ℚ) (ev : PlayEvent) (c : PlayCtl) :
    PlayCtl × ℚ :=
  if c.skipToNext then
    if isSkipStop ev.kind ev.data then
      (⟨true, false⟩, 0)
    else (c, 0)
  else (c, insertedDelay fuel speed maxDelay lastT ev.t)

/-- Output channels of the playback process. -/
inductive Chan where
  | stdout
  | stderr
deriving DecidableEq

/-- `set_terminal_title`: two OSC sequences, both written to stderr
(deliberately, to keep stdout undisturbed). -/
def setTitleWrites (title : String) : List (Chan × String) :=
  [(Chan.stderr, "\x1b]0;" ++ title ++ "\x07"),
   (Chan.stderr, "\x1b]2;" ++ title ++ "\x07")]

/-- Title text shown while a long pause is clamped; the interpolated
numbers are abstracted (no claim inspects the text). -/
def skipNoticeTitle : String := "Skipping pause"

def playingTitle : String := "Playing"

/-- Writes performed by the delay-handling code before an event in
normal mode: when the nominal delay exceeds `max_delay`, the
"Skipping ... pause" and then "Playing" titles go to stderr; nothing
is ever written to stdout here. -/
def delayNoticeWrites (speed maxDelay lastT t : ℚ) : List (Chan × String) :=
  let delay := (t - lastT) / speed
  if 0 < delay ∧ maxDelay < delay then
    setTitleWrites skipNoticeTitle ++ setTitleWrites playingTitle
  else []

def commaStr : String := ","

/-- Python `int(s)`: optional sign then decimal digits (whitespace
and underscore forms are not modelled; no claim depends on them). -/
def pyIntOfString (s : String) : Option ℤ :=
  match s.toList with
  | '-' :: r => if allDigits r then some (-(digitsVal r : ℤ)) else none
  | '+' :: r => if allDigits r then some (digitsVal r) else none
  | r => if allDigits r then some (digitsVal r) else none

/-- The resize escape `ESC[8;<rows>;<cols>t`. -/
def resizeSeq (rows cols : ℤ) : String :=
  "\x1b[8;" ++ toString rows ++ ";" ++ toString cols ++ "t"

/-- The `r`-event arm of `play_events` (lines 345-354): if the payload
contains a comma, `height, width = map(int, data.split(','))`; a
`ValueError` (non-integer part, or more than two parts on unpacking)
is caught and ignored; on success the resize escape goes to stdout. -/
def emitResize (payload : String) : List (Chan × String) :=
  if pyContains commaStr payload then
    match payload.splitOn commaStr with
    | [hs, ws] =>
      match pyIntOfString hs, pyIntOfString ws with
      | some rows, some cols => [(Chan.stdout, resizeSeq rows cols)]
      | _, _ => []
    | _ => []
  else []

/-- The warning printed for an unrecognized event kind
(`print(..., file=sys.stderr)` appends a newline). -/
def unknownKindWarn (kind : String) : String :=
  "Unknown event type: " ++ kind ++ "\n"

/-- The per-kind emission arm of `play_events` (lines 334-360):
`o` → payload to stdout, `e` → payload to stderr, `i` and `m` →
nothing, `r` → resize escape, anything else → a warning line on
stderr. -/
def emitEvent (ev : PlayEvent) : List (Chan × String) :=
  if ev.kind = "o" then [(Chan.stdout, ev.data)]
  else if ev.kind = "e" then [(Chan.stderr, ev.data)]
  else if ev.kind = "i" then []
  else if ev.kind = "r" then emitResize ev.data
  else if ev.kind = "m" then []
  else [(Chan.stderr, unknownKindWarn ev.kind)]

/-- The full write trace of `play_events` when no keyboard input
arrives (both control flags stay false): for each event, the possible
clamp-notice titles (stderr) and then the event's own emission, with
`last_timestamp` threaded through. -/
def playEventsTrace (speed maxDelay : ℚ) : List PlayEvent → ℚ → List (Chan × String)
  | [], _ => []
  | ev :: rest, lastT =>
    delayNoticeWrites speed maxDelay lastT ev.t ++ emitEvent ev ++
      playEventsTrace speed maxDelay rest ev.t

/-- The strings a trace writes to stdout, in order. -/
def stdoutWrites (tr : List (Chan × String)) : List String :=
  tr.filterMap (fun w => if w.1 = Chan.stdout then some w.2 else none)

/-! ## Helper lemmas -/

lemma round3_mono {a b : ℚ} (h : a ≤ b) : round3 a ≤ round3 b := by
  have hr : round (1000 * a) ≤ round (1000 * b) := by
    rw [round_eq, round_eq]
    exact Int.floor_mono (by linarith)
  unfold round3
  have hq : ((round (1000 * a) : ℤ) : ℚ) ≤ ((round (1000 * b) : ℤ) : ℚ) := by
    exact_mod_cast hr
  linarith

lemma recordEvents_open (t0 : ℚ) (evs : List CastEvent)
    (calls : List (ℚ × String × String)) :
    recordEvents ⟨some ⟨evs, false⟩, t0⟩ calls =
      .ok ⟨some ⟨evs ++ calls.map (fun c => ⟨round3 (c.1 - t0), c.2.1, c.2.2⟩), false⟩, t0⟩ := by
  induction calls generalizing evs with
  | nil => simp [recordEvents]
  | cons c cs ih => simp [recordEvents, write_event, ih]

instance exceptDecEq {ε α : Type} [DecidableEq ε] [DecidableEq α] :
    DecidableEq (Except ε α) := fun x y =>
  match x, y with
  | .ok a, .ok b =>
    if h : a = b then .isTrue (by rw [h])
    else .isFalse (fun hh => h (by cases hh; rfl))
  | .error a, .error b =>
    if h : a = b then .isTrue (by rw [h])
    else .isFalse (fun hh => h (by cases hh; rfl))
  | .ok _, .error _ => .isFalse (fun hh => Except.noConfusion hh)
  | .error _, .ok _ => .isFalse (fun hh => Except.noConfusion hh)

lemma sleepChunks_le (n : ℕ) (r : ℚ) : sleepChunks n r ≤ max r 0 := by
  induction n generalizing r with
  | zero =>
    simp only [sleepChunks]
    exact le_max_right r 0
  | succ n ih =>
    simp only [sleepChunks]
    split
    case isTrue h =>
      have hmin : min (1 / 10 : ℚ) r ≤ r := min_le_right _ _
      have h1 := ih (r - min (1 / 10) r)
      have h2 : max (r - min (1 / 10 : ℚ) r) 0 = r - min (1 / 10) r :=
        max_eq_left (by linarith)
      have h3 : r ≤ max r 0 := le_max_left _ _
      rw [h2] at h1
      linarith
    case isFalse h => exact le_max_right r 0

lemma sleepChunks_exact (k : ℕ) : ∀ n : ℕ, k ≤ n → sleepChunks n ((k : ℚ) / 10) = (k : ℚ) / 10 := by
  induction k with
  | zero =>
    intro n _
    cases n <;> simp [sleepChunks]
  | succ k ih =>
    intro n hn
    obtain ⟨m, rfl⟩ : ∃ m, n = m + 1 := ⟨n - 1, by omega⟩
    have hk : (0 : ℚ) ≤ (k : ℚ) := Nat.cast_nonneg k
    have hcast : ((k + 1 : ℕ) : ℚ) = (k : ℚ) + 1 := by push_cast; ring
    rw [hcast]
    have hpos : (0 : ℚ) < ((k : ℚ) + 1) / 10 := by positivity
    have hmin : min (1 / 10 : ℚ) (((k : ℚ) + 1) / 10) = 1 / 10 :=
      min_eq_left (by linarith)
    have hsub : ((k : ℚ) + 1) / 10 - 1 / 10 = (k : ℚ) / 10 := by ring
    have ihm := ih m (by omega)
    simp only [sleepChunks, if_pos hpos, hmin, hsub, ihm]
    ring

lemma stdoutWrites_append (a b : List (Chan × String)) :
    stdoutWrites (a ++ b) = stdoutWrites a ++ stdoutWrites b := by
  simp [stdoutWrites]

lemma stdoutWrites_delayNotice (speed maxDelay lastT t : ℚ) :
    stdoutWrites (delayNoticeWrites speed maxDelay lastT t) = [] := by
  simp only [delayNoticeWrites]
  split <;> simp [setTitleWrites, stdoutWrites]

lemma collectEvents_no_fatal (rest : List RawLine)
    (hnf : ∀ l ∈ rest, processEventLine l ≠ .fatal) :
    ∀ acc w, collectEvents rest acc w =
      .ok (acc ++ rest.filterMap eventOfLine, w + rest.countP lineWarns) := by
  induction rest with
  | nil => intro acc w; simp [collectEvents]
  | cons l ls ih =>
    intro acc w
    have hl : processEventLine l ≠ .fatal := hnf l (by simp)
    have hls : ∀ x ∈ ls, processEventLine x ≠ .fatal := fun x hx => hnf x (by simp [hx])
    cases hpe : processEventLine l with
    | skip =>
      simp [collectEvents, hpe, ih hls, eventOfLine, lineWarns, List.countP_cons]
    | warnSkip =>
      simp [collectEvents, hpe, ih hls, eventOfLine, lineWarns, List.countP_cons]
      omega
    | event e =>
      simp [collectEvents, hpe, ih hls, eventOfLine, lineWarns, List.countP_cons]
    | fatal => exact absurd hpe hl

/-! ## Claim C1 -/

/-- C1 counterexample: `write_event` stamps events with
`round(time.time() - self.start_time, 3)`, a *wall-clock* difference.
A recording in which the wall clock reads 10 and then (after a
backward clock jump) 5 produces the timestamp sequence `[10, 5]`,
which is decreasing — so the claim that the timestamp sequence is
always non-decreasing because the clock is monotonic is false of the
code. -/
theorem c1_wall_clock_jump_counterexample :
    castTimestamps (recordEvents (freshRecorder 0) [(10, "o", "a"), (5, "o", "b")]) = [10, 5]
    ∧ ¬ List.Pairwise (α := ℚ) (· ≤ ·) [10, 5] := by
  constructor
  · rw [show freshRecorder 0 = ⟨some ⟨[], false⟩, 0⟩ from rfl, recordEvents_open]
    simp only [castTimestamps, List.map_map, List.nil_append]
    norm_num [round3, round_eq]
  · decide

/-- C1 (amended): the event timestamps written by successive
`write_event` calls are non-decreasing *provided the successive
`time.time()` readings are non-decreasing*; the code uses the wall
clock (`time.time()`), not a monotonic clock, so this hypothesis can
fail under a backward wall-clock jump. -/
theorem c1_timestamps_monotone_of_monotone_clock (t0 : ℚ)
    (calls : List (ℚ × String × String))
    (hmono : List.Pairwise (· ≤ ·) (calls.map Prod.fst)) :
    List.Pairwise (· ≤ ·) (castTimestamps (recordEvents (freshRecorder t0) calls)) := by
  have hfr : freshRecorder t0 = ⟨some ⟨[], false⟩, t0⟩ := rfl
  rw [hfr, recordEvents_open]
  simp only [castTimestamps, List.map_map, List.nil_append]
  have hcomp :
      (CastEvent.t ∘ fun c : ℚ × String × String => (⟨round3 (c.1 - t0), c.2.1, c.2.2⟩ : CastEvent)) =
        (fun r : ℚ => round3 (r - t0)) ∘ Prod.fst := rfl
  rw [hcomp, ← List.map_map]
  exact hmono.map _ (fun a b hab => round3_mono (by linarith))

/-- C1 witness: a recording with clock readings 1 then 2 satisfies the
hypothesis and yields non-decreasing timestamps. -/
theorem c1_witness :
    List.Pairwise (· ≤ ·) (([((1 : ℚ), "o", "a"), (2, "o", "b")]).map Prod.fst)
    ∧ List.Pairwise (· ≤ ·)
        (castTimestamps (recordEvents (freshRecorder 0) [((1 : ℚ), "o", "a"), (2, "o", "b")])) :=
  ⟨by decide, c1_timestamps_monotone_of_monotone_clock 0 _ (by decide)⟩

/-! ## Claim C2 -/

/-- C2: for both `record_session` and playback, on every modelled exit
path — normal completion (including child exit), a caught or escaping
exception (parse error, fatal I/O error), or `KeyboardInterrupt` — the
`finally` clause restores the controlling terminal, so the attributes
at exit equal the attributes at entry; a load failure exits before the
terminal is ever switched to raw mode. -/
theorem c2_terminal_restored_all_paths (isTty loadOk : Bool)
    (rawAttrs entryAttrs : ℕ) (bodyR bodyP : PyFlow) :
    ((record_session_tty isTty rawAttrs entryAttrs bodyR).1).attrs = entryAttrs
    ∧ ((playback_main_tty loadOk isTty rawAttrs entryAttrs bodyP).1).attrs = entryAttrs := by
  constructor <;>
    cases isTty <;> cases loadOk <;>
      simp [record_session_tty, playback_main_tty, play_in_terminal_tty,
        setup_terminal, restore_terminal]

/-! ## Claim C6 -/

/-- C6 counterexample: after `record_session` closes the cast file the
attribute `self.cast_file` still holds the (truthy) closed file
object, so a later `write_event` calls `write` on it and gets Python's
`ValueError: I/O operation on closed file` — not a `WriterClosed`
error, which does not exist anywhere in the source. -/
theorem c6_counterexample_valueerror_not_writerclosed :
    write_event (closeCastFile (freshRecorder 0)) 1 "o" "x" = .error .valueErrorClosedFile
    ∧ write_event (closeCastFile (freshRecorder 0)) 1 "o" "x" ≠ .error .writerClosed := by
  decide

/-- C6 (amended): once the cast file has been closed at teardown,
every subsequent `write_event` raises `ValueError` (the write fails
before anything reaches the file) and the file's event lines are
unchanged. -/
theorem c6_write_after_close_fails (st : RecorderState) (f : CastFileState)
    (hf : st.castFile = some f) (now : ℚ) (etype edata : String) :
    write_event (closeCastFile st) now etype edata = .error .valueErrorClosedFile
    ∧ (closeCastFile st).castFile = some ⟨f.events, true⟩ := by
  constructor
  · simp [closeCastFile, hf, write_event]
  · simp [closeCastFile, hf]

/-- C6 witness: concrete instance on a freshly opened then closed
recorder. -/
theorem c6_witness :
    (freshRecorder 0).castFile = some ⟨[], false⟩
    ∧ (write_event (closeCastFile (freshRecorder 0)) 2 "o" "y" = .error .valueErrorClosedFile
        ∧ (closeCastFile (freshRecorder 0)).castFile = some ⟨[], true⟩) :=
  ⟨rfl, c6_write_after_close_fails (freshRecorder 0) ⟨[], false⟩ rfl 2 "o" "y"⟩

/-! ## Claim C7 -/

/-- C7: in the recorder's I/O loop a zero-byte read on the pty master
exits the loop; a zero-byte read on the stderr pipe is ignored and the
loop continues; a zero-byte read on the controlling terminal's stdin
writes nothing to the pty, appends no `i` event, and continues the
loop. -/
theorem c7_eof_policy (st : IoState) :
    handle_fd st .masterFd (.bytes "") = (st, .exitLoop)
    ∧ handle_fd st .stderrFd (.bytes "") = (st, .keepGoing)
    ∧ handle_fd st .stdinFd (.bytes "") = (st, .keepGoing) := by
  refine ⟨?_, ?_, ?_⟩ <;> simp [handle_fd]

/-! ## Claim C3 -/

/-- C3 counterexample: with `speed = 1`, `max_delay = 5` and an
inter-event gap of 10 s, the engine sleeps 0.5 s to display the
"Skipping pause" notice *in addition to* the capped 5 s delay, for a
total of 5.5 s — more than `min(gap/speed, max_delay) + 0.1`.  So the
claimed bound `min((t_i - t_(i-1))/speed, max_delay) + ε` with
`ε ≤ 100 ms` is false of the code. -/
theorem c3_counterexample_extra_half_second :
    insertedDelay 100 1 5 0 10 = 11 / 2
    ∧ ¬(insertedDelay 100 1 5 0 10 ≤ min (((10 : ℚ) - 0) / 1) 5 + 1 / 10) := by
  have h5 : sleepChunks 100 (5 : ℚ) = 5 := by
    have h := sleepChunks_exact 50 100 (by norm_num)
    norm_num at h
    exact h
  have hval : insertedDelay 100 1 5 0 10 = 11 / 2 := by
    simp only [insertedDelay]
    norm_num [min_def, h5]
  refine ⟨hval, ?_⟩
  rw [hval]
  norm_num [min_def]

/-- C3 (amended): with `speed > 0`, `max_delay > 0` and no pause or
skip control active, the total sleep inserted before an event is at
most `min((t_i - t_(i-1))/speed, max_delay)` when the nominal delay
does not exceed `max_delay`; when it does, the 0.5 s clamp-notice
sleep is added, so the bound is `max_delay + 0.5`.  (The ≤100 ms
chunked sleep never over-sleeps the capped delay, so no extra `ε` is
needed on top of these bounds.) -/
theorem c3_delay_bound (fuel : ℕ) (speed maxDelay lastT t : ℚ)
    (hs : 0 < speed) (hm : 0 < maxDelay) (hle : lastT ≤ t) :
    insertedDelay fuel speed maxDelay lastT t ≤
      min ((t - lastT) / speed) maxDelay +
        (if maxDelay < (t - lastT) / speed then 1 / 2 else 0) := by
  have hd : 0 ≤ (t - lastT) / speed := div_nonneg (by linarith) hs.le
  simp only [insertedDelay]
  split
  case isTrue h =>
    have h1 : sleepChunks fuel (min ((t - lastT) / speed) maxDelay) ≤
        max (min ((t - lastT) / speed) maxDelay) 0 := sleepChunks_le _ _
    have h2 : (0 : ℚ) ≤ min ((t - lastT) / speed) maxDelay := le_min hd hm.le
    have h3 : max (min ((t - lastT) / speed) maxDelay) 0 =
        min ((t - lastT) / speed) maxDelay := max_eq_left h2
    rw [h3] at h1
    by_cases hc : maxDelay < (t - lastT) / speed
    · simp only [if_pos hc]
      linarith
    · simp only [if_neg hc]
      linarith
  case isFalse h =>
    have hz : (t - lastT) / speed = 0 := le_antisymm (not_lt.mp h) hd
    rw [hz]
    rw [min_eq_left hm.le]
    simp [not_lt.mpr hm.le]

/-- C3 witness: a 2 s gap at speed 1 with `max_delay = 5` satisfies
the hypotheses and the bound. -/
theorem c3_witness :
    (0 : ℚ) < 1 ∧ (0 : ℚ) < 5 ∧ (0 : ℚ) ≤ 2
    ∧ insertedDelay 100 1 5 0 2 ≤
        min (((2 : ℚ) - 0) / 1) 5 + (if (5 : ℚ) < ((2 : ℚ) - 0) / 1 then 1 / 2 else 0) :=
  ⟨by norm_num, by norm_num, by norm_num,
    c3_delay_bound 100 1 5 0 2 (by norm_num) (by norm_num) (by norm_num)⟩

/-! ## Claim C4 -/

def outKind : String := "o"

def samplePayload : String := "x"

/-- The hub right after `write_header` with `B = 1000`, no viewer yet. -/
def c4Hub : HubState := ⟨⟨1000, []⟩, 0, true⟩

/-- 250 output events published (via `write_event` →
`schedule_broadcast` → `broadcast_event`) while no viewer is
connected. -/
def c4AfterPublish : HubState :=
  (List.range 250).foldl (fun h i => broadcast_event h (i : ℚ) outKind samplePayload) c4Hub

/-- C4: `broadcast_event` returns before `process_output` whenever no
client is connected, so 250 events published before the first viewer
leave the replay buffer empty; the viewer that then attaches receives
exactly one `terminal_sync`, but its `recent_output` is empty and
`buffer_info.total_events` is 0 — not the claimed 100 and 250.  (The
`--monitor-buffer-size` help text documents the buffer as holding
recent output *for new monitor clients*, so the spec describes the
intent and the early return is the bug.) -/
theorem c4_sync_empty_before_first_viewer :
    handle_client_connect c4AfterPublish = [⟨[], 0, 0⟩]
    ∧ ¬((get_sync_data c4AfterPublish.termState).recent.length = 100
        ∧ (get_sync_data c4AfterPublish.termState).totalEvents = 250) := by
  have hfold : ∀ (l : List ℕ) (st : HubState), st.clients = 0 →
      l.foldl (fun st2 i => broadcast_event st2 (i : ℚ) outKind samplePayload) st = st := by
    intro l
    induction l with
    | nil => intro st _; rfl
    | cons x xs ih =>
      intro st hc
      have hx : broadcast_event st (x : ℚ) outKind samplePayload = st := by
        simp [broadcast_event, hc]
      have step : (x :: xs).foldl (fun st2 i => broadcast_event st2 (i : ℚ) outKind samplePayload) st
          = xs.foldl (fun st2 i => broadcast_event st2 (i : ℚ) outKind samplePayload)
              (broadcast_event st (x : ℚ) outKind samplePayload) := rfl
      rw [step, hx]
      exact ih st hc
  have hc4 : c4AfterPublish = c4Hub := hfold (List.range 250) c4Hub rfl
  rw [hc4]
  constructor
  · rfl
  · decide

/-! ## Claim C5 -/

/-- A well-formed header object (`version = 2` plus size fields). -/
def validHeaderJson : Json :=
  .obj [(versionKey, .num 2), ("width", .num 80), ("height", .num 24)]

/-- C5 counterexample: the header is parsed from `lines[0]`, not from
the first *non-empty* line.  A cast file whose first line is empty and
whose second line is a perfectly valid header fails fatally with
"Invalid JSON in header" (`json.loads("")` raises), even though the
same header alone loads fine. -/
theorem c5_counterexample_blank_first_line :
    load_cast_file [RawLine.blank, RawLine.parsed validHeaderJson] = .error .invalidHeaderJson
    ∧ load_cast_file [RawLine.parsed validHeaderJson] = .ok (validHeaderJson, [], 0) := by
  constructor
  · rfl
  · rfl

/-- C5 (amended): the *first line* (not the first non-empty line) is
parsed as the header — an empty or malformed first line, or a header
whose `version` is not 2, is fatal; each subsequent line that is
invalid JSON or an array of fewer than three elements is skipped with
one warning; subsequent empty lines are ignored; and when no line
raises an uncaught coercion exception, loading succeeds with exactly
the events of the well-formed lines, in order. -/
theorem c5_load_amended (fields : List (String × Json)) (rest : List RawLine)
    (hv : isVersionTwo (.obj fields) = true)
    (hnf : ∀ l ∈ rest, processEventLine l ≠ .fatal) :
    load_cast_file (.parsed (.obj fields) :: rest) =
      .ok (.obj fields, rest.filterMap eventOfLine, rest.countP lineWarns)
    ∧ load_cast_file (RawLine.blank :: rest) = .error .invalidHeaderJson
    ∧ load_cast_file (RawLine.badJson :: rest) = .error .invalidHeaderJson
    ∧ ∀ fields2 : List (String × Json), isVersionTwo (.obj fields2) = false →
        load_cast_file (.parsed (.obj fields2) :: rest) = .error .unsupportedVersion := by
  refine ⟨?_, rfl, rfl, ?_⟩
  · simp [load_cast_file, hv, collectEvents_no_fatal rest hnf [] 0, Except.map]
  · intro fields2 h2
    simp [load_cast_file, h2]

/-- C5 witness: a header with `version = 2` followed by a blank line,
an invalid-JSON line, a well-formed event and a short array loads with
exactly that one event and two warnings. -/
theorem c5_witness :
    isVersionTwo (.obj [(versionKey, .num 2)]) = true
    ∧ (∀ l ∈ [RawLine.blank, RawLine.badJson,
          RawLine.parsed (.arr [Json.num 1, Json.str "o", Json.str "hi"]),
          RawLine.parsed (.arr [Json.num 1])], processEventLine l ≠ .fatal)
    ∧ load_cast_file (.parsed (.obj [(versionKey, .num 2)]) ::
        [RawLine.blank, RawLine.badJson,
          RawLine.parsed (.arr [Json.num 1, Json.str "o", Json.str "hi"]),
          RawLine.parsed (.arr [Json.num 1])]) =
      .ok (.obj [(versionKey, .num 2)],
        [RawLine.blank, RawLine.badJson,
          RawLine.parsed (.arr [Json.num 1, Json.str "o", Json.str "hi"]),
          RawLine.parsed (.arr [Json.num 1])].filterMap eventOfLine,
        [RawLine.blank, RawLine.badJson,
          RawLine.parsed (.arr [Json.num 1, Json.str "o", Json.str "hi"]),
          RawLine.parsed (.arr [Json.num 1])].countP lineWarns) :=
  ⟨rfl, by decide,
    (c5_load_amended [(versionKey, .num 2)] _ rfl (by decide)).1⟩

/-! ## Claim C8 -/

/-- An `m` payload that merely *contains* `activity_resumed_after`
without beginning with `activity_resumed_after_`. -/
def gapPayload : String := "note activity_resumed_after_7s"

/-- C8 counterexample: the skip-mode stopping test is the substring
test `'activity_resumed_after' in data`, so an `m` event whose payload
does not begin with `activity_resumed_after_` is nevertheless a
stopping point: skip mode ends and playback auto-pauses at it, which
contradicts the claim that such events are not stopping points. -/
theorem c8_counterexample_substring_match :
    preEventStep 1 1 5 0 ⟨1, "m", gapPayload⟩ ⟨false, true⟩ = (⟨true, false⟩, 0)
    ∧ pyStartsWith activityTagUnderscore gapPayload = false := by
  constructor
  · decide
  · decide

/-- C8 (amended): after Tab sets `skip_to_next`, the engine advances
with zero inserted delay past every event until the first event of
kind `i`, or of kind `m` whose payload *contains the substring*
`activity_resumed_after` (not: begins with `activity_resumed_after_`);
on reaching such an event it clears the skip flag and auto-pauses, and
Space released the pause. -/
theorem c8_skip_mode_amended (fuel : ℕ) (speed maxDelay lastT : ℚ)
    (ev : PlayEvent) (c : PlayCtl) (hskip : c.skipToNext = true) :
    (isSkipStop ev.kind ev.data = true →
        preEventStep fuel speed maxDelay lastT ev c = (⟨true, false⟩, 0))
    ∧ (isSkipStop ev.kind ev.data = false →
        preEventStep fuel speed maxDelay lastT ev c = (c, 0))
    ∧ handle_input_key c 9 = some { c with skipToNext := true }
    ∧ ∀ c2 : PlayCtl, c2.paused = true →
        handle_input_key c2 32 = some { c2 with paused := false } := by
  refine ⟨?_, ?_, ?_, ?_⟩
  · intro hstop
    simp [preEventStep, hskip, hstop]
  · intro hstop
    simp [preEventStep, hskip, hstop]
  · simp [handle_input_key]
  · intro c2 hp
    simp [handle_input_key, hp]

/-- C8 witness: with skip mode active, an `i` event is a stopping
point and pausing occurs there. -/
theorem c8_witness :
    (⟨false, true⟩ : PlayCtl).skipToNext = true
    ∧ preEventStep 1 1 5 0 ⟨1, "i", ""⟩ ⟨false, true⟩ = (⟨true, false⟩, 0) :=
  ⟨rfl, (c8_skip_mode_amended 1 1 5 0 ⟨1, "i", ""⟩ ⟨false, true⟩ rfl).1 (by decide)⟩

/-! ## Claim C9 -/

/-- C9: playing back a cast whose events are all of kind `o` writes to
stdout exactly the recorded payloads in order (the clamp-notice titles
go to stderr only), so the concatenation of stdout writes equals the
concatenation of the payloads. -/
theorem c9_pure_output_roundtrip (speed maxDelay lastT : ℚ) (evs : List PlayEvent)
    (h : ∀ e ∈ evs, e.kind = "o") :
    stdoutWrites (playEventsTrace speed maxDelay evs lastT) = evs.map PlayEvent.data
    ∧ String.join (stdoutWrites (playEventsTrace speed maxDelay evs lastT)) =
        String.join (evs.map PlayEvent.data) := by
  have hlist : ∀ lastT2 : ℚ, ∀ l : List PlayEvent, (∀ e ∈ l, e.kind = "o") →
      stdoutWrites (playEventsTrace speed maxDelay l lastT2) = l.map PlayEvent.data := by
    intro lastT2 l
    induction l generalizing lastT2 with
    | nil => intro _; rfl
    | cons e es ih =>
      intro hl
      have he : e.kind = "o" := hl e (by simp)
      have hes : ∀ x ∈ es, x.kind = "o" := fun x hx => hl x (by simp [hx])
      simp only [playEventsTrace, stdoutWrites_append, stdoutWrites_delayNotice,
        List.nil_append, List.map_cons]
      rw [ih e.t hes]
      simp [emitEvent, he, stdoutWrites]
  have h1 := hlist lastT evs h
  exact ⟨h1, by rw [h1]⟩

/-- C9 witness: two `o` events with payloads `a` and `b` produce
stdout writes `[a, b]`. -/
theorem c9_witness :
    (∀ e ∈ [(⟨0, "o", "a"⟩ : PlayEvent), ⟨1, "o", "b"⟩], e.kind = "o")
    ∧ stdoutWrites (playEventsTrace 1 5 [(⟨0, "o", "a"⟩ : PlayEvent), ⟨1, "o", "b"⟩] 0) =
        [(⟨0, "o", "a"⟩ : PlayEvent), ⟨1, "o", "b"⟩].map PlayEvent.data :=
  ⟨by decide, (c9_pure_output_roundtrip 1 5 0 _ (by decide)).1⟩

/-! ## Claim C10 -/

/-- An event line whose timestamp slot holds JSON `null`. -/
def badTimestampLine : RawLine := .parsed (.arr [Json.null, Json.str "o", Json.str "hi"])

/-- C10 counterexample: a line that parses as a JSON array of three
elements is *not* always accepted: if `float(event[0])` raises (here
`float(None)`, a `TypeError`), the exception escapes the per-line
`except json.JSONDecodeError` handler and the outer `except Exception`
fails the *entire load* — the line is neither accepted nor skipped
with a warning. -/
theorem c10_counterexample_null_timestamp :
    pyLen (.arr [Json.null, Json.str "o", Json.str "hi"]) = some 3
    ∧ processEventLine badTimestampLine = .fatal
    ∧ load_cast_file [RawLine.parsed validHeaderJson, badTimestampLine] =
        .error .uncaughtException := by
  refine ⟨rfl, rfl, rfl⟩

/-- C10 (amended): an event line parsing as a JSON array of three or
more elements is accepted exactly when `float` succeeds on its first
element; then only the first three elements are used (extras are
ignored), the kind and payload being `str`-coerced; and an event whose
kind is outside `{o, e, i, r, m}` is only reported at play time by a
warning line on stderr, with nothing emitted to stdout. -/
theorem c10_array_event_accepted (a b c : Json) (extra : List Json) (tv : ℚ)
    (ha : pyFloat a = some tv) (tq : ℚ) (k payload : String)
    (hk : k ≠ "o" ∧ k ≠ "e" ∧ k ≠ "i" ∧ k ≠ "r" ∧ k ≠ "m") :
    processEventLine (.parsed (.arr (a :: b :: c :: extra))) = .event ⟨tv, pyStr b, pyStr c⟩
    ∧ emitEvent ⟨tq, k, payload⟩ = [(Chan.stderr, unknownKindWarn k)] := by
  obtain ⟨h1, h2, h3, h4, h5⟩ := hk
  constructor
  · simp [processEventLine, pyLen, pyGetItemNat, ha]
  · simp [emitEvent, h1, h2, h3, h4, h5]

/-- C10 witness: the array `[1, "o", "hi", null]` (an ignored fourth
element) is accepted as the event `(1, "o", "hi")`, and a `z`-kind
event at play time yields only the stderr warning. -/
theorem c10_witness :
    pyFloat (Json.num 1) = some 1
    ∧ ("z" ≠ "o" ∧ "z" ≠ "e" ∧ "z" ≠ "i" ∧ "z" ≠ "r" ∧ "z" ≠ "m")
    ∧ (processEventLine (.parsed (.arr [Json.num 1, Json.str "o", Json.str "hi", Json.null])) =
          .event ⟨1, "o", "hi"⟩
        ∧ emitEvent ⟨0, "z", "w"⟩ = [(Chan.stderr, unknownKindWarn "z")]) :=
  ⟨rfl, by decide,
    c10_array_event_accepted (Json.num 1) (Json.str "o") (Json.str "hi") [Json.null] 1 rfl
      0 "z" "w" (by decide)⟩
